import Mathlib

/-!
Verification of the HR-assistant repository (auth, query routing, leave
validation, RAG answer generation, reranking, ingestion).

Text is modelled as `List Char`; Python `float` arithmetic on the small leave
quantities involved is modelled exactly by `ℚ` (all compared literals and the
relevant ranges are exactly representable and the comparisons agree); fallible
Python code (raising / try-except) is modelled with `Except`; the external
collaborators (embedding backend, generation backend, spreadsheet store,
filesystem) are parameters of the definitions.
-/

namespace HRAssistant

/-- ASCII lowercasing of a text, modelling Python `str.lower()` on the
ASCII queries the router handles. -/
def toLowerL (s : List Char) : List Char := s.map Char.toLower

/-- ASCII uppercasing of a text, modelling Python `str.upper()`. -/
def toUpperL (s : List Char) : List Char := s.map Char.toUpper

/-- Strip leading and trailing whitespace, modelling Python `str.strip()`. -/
def trimL (s : List Char) : List Char :=
  ((s.dropWhile Char.isWhitespace).reverse.dropWhile Char.isWhitespace).reverse

/-- Substring containment, modelling Python's `needle in hay` on `str`. -/
def containsSub (needle : List Char) : List Char → Bool
  | [] => needle.isEmpty
  | c :: t => needle.isPrefixOf (c :: t) || containsSub needle t

/-- Accumulator-passing worker of `splitWs`. -/
def splitWsAux : List Char → List Char → List (List Char)
  | [], acc => if acc.isEmpty then [] else [acc.reverse]
  | c :: cs, acc =>
    if c.isWhitespace then
      if acc.isEmpty then splitWsAux cs [] else acc.reverse :: splitWsAux cs []
    else splitWsAux cs (c :: acc)

/-- Split a text at runs of whitespace, discarding empty pieces, modelling
Python `str.split()` with no argument. -/
def splitWs (s : List Char) : List (List Char) := splitWsAux s []

/-- Count non-overlapping occurrences of `". "` scanning left to right,
modelling Python `result.count(". ")`. -/
def countDotSpace : List Char → Nat
  | '.' :: ' ' :: rest => countDotSpace rest + 1
  | _ :: rest => countDotSpace rest
  | [] => 0

/-! ## Query router (src/query_handler.py, `QueryHandler.handle_query`) -/

/-- The three branches `handle_query` can take. -/
inductive Route
  | leaveApplication
  | balance
  | policyQuestion
deriving DecidableEq

/-- The fixed balance phrase set of `handle_query`
(`["leave balance", "remaining leaves", "how many leaves"]`). -/
def balancePhrases : List (List Char) :=
  ["leave balance".toList, "remaining leaves".toList, "how many leaves".toList]

/-- The normalisation `query.lower().strip()` applied at the top of
`handle_query`. -/
def normQuery (query : List Char) : List Char := trimL (toLowerL query)

/-- Branch selection of `QueryHandler.handle_query` (src/query_handler.py
lines 20–38): after lowercasing and stripping, a query starting with
`"apply for leave"` goes to the leave-application handler; otherwise a query
containing any balance phrase goes to the balance branch; otherwise the query
is treated as a policy question. -/
def handle_query_route (query : List Char) : Route :=
  let q := normQuery query
  if ("apply for leave".toList).isPrefixOf q then
    Route.leaveApplication
  else if balancePhrases.any (fun t => containsSub t q) then
    Route.balance
  else
    Route.policyQuestion

/-! ## Leave application (src/auth.py, `Authenticator.apply_for_leave`;
configuration from src/config.py) -/

/-- `Config.MIN_LEAVE_DAYS = 0.5` (src/config.py line 31). -/
def MIN_LEAVE_DAYS : ℚ := 1 / 2

/-- `Config.MAX_LEAVE_DAYS = 30` (src/config.py line 32). -/
def MAX_LEAVE_DAYS : ℚ := 30

/-- `Authenticator.apply_for_leave` (src/auth.py lines 98–135), with the
spreadsheet lookup abstracted to the fetched `remaining_leaves` value and the
sheet update represented by returning the new remaining balance. The four
validation checks raise `ValueError` in the source order (positivity, minimum,
maximum, sufficient balance); the method's blanket `except Exception` clause
re-raises every failure wrapped as `"Failed to apply for leave: " + reason`,
modelled by prepending that text to the error. -/
def apply_for_leave (remaining_leaves : ℚ) (days : ℚ) : Except (List Char) ℚ :=
  let wrap : List Char → Except (List Char) ℚ :=
    fun e => Except.error ("Failed to apply for leave: ".toList ++ e)
  if days ≤ 0 then wrap ("Leave days must be positive".toList)
  else if days < MIN_LEAVE_DAYS then wrap ("Minimum leave is 0.5 day".toList)
  else if days > MAX_LEAVE_DAYS then wrap ("Maximum leave is 30 days".toList)
  else if days > remaining_leaves then wrap ("Not enough remaining leaves".toList)
  else Except.ok (remaining_leaves - days)

/-- Numeric value of a digit string (`[]` contributes 0). -/
def natVal (l : List Char) : Nat :=
  l.foldl (fun n c => 10 * n + (c.toNat - '0'.toNat)) 0

/-- Unsigned part of the Python `float(...)` grammar restricted to what the
leave interface can meet: digits with an optional single decimal point and at
least one digit overall (so `"2.5"`, `"3"`, `"0"`, `"1."`, `".5"` parse and
`"abc"`, `""`, `"."` do not); exponents, `inf`, `nan` and underscores are not
modelled. -/
def parseUnsignedFloat (l : List Char) : Option ℚ :=
  let intPart := l.takeWhile Char.isDigit
  let rest := l.dropWhile Char.isDigit
  match rest with
  | [] => if intPart.isEmpty then none else some (natVal intPart : ℚ)
  | '.' :: frac =>
    if frac.all Char.isDigit && !(intPart.isEmpty && frac.isEmpty) then
      some ((natVal intPart : ℚ) + (natVal frac : ℚ) / (10 ^ frac.length))
    else none
  | _ => none

/-- Python `float(token)` as used by `_handle_leave_application`: optional
surrounding whitespace, optional sign, then `parseUnsignedFloat`; `none`
models the raised `ValueError`. -/
def pyFloat (s : List Char) : Option ℚ :=
  match trimL s with
  | '-' :: rest => (parseUnsignedFloat rest).map (fun q => -q)
  | '+' :: rest => parseUnsignedFloat rest
  | l => parseUnsignedFloat l

/-- Python `int(token)` as used by `authenticate`: optional surrounding
whitespace, optional sign, then a non-empty digit string; `none` models the
raised `ValueError` (underscore separators are not modelled). -/
def pyInt (s : List Char) : Option Int :=
  match trimL s with
  | '-' :: rest =>
    if !rest.isEmpty && rest.all Char.isDigit then some (-(natVal rest : Int)) else none
  | '+' :: rest =>
    if !rest.isEmpty && rest.all Char.isDigit then some (natVal rest : Int) else none
  | l =>
    if !l.isEmpty && l.all Char.isDigit then some (natVal l : Int) else none

/-- The messages `_handle_leave_application` can return
(src/query_handler.py lines 40–61). Each constructor stands for one of the
f-strings of the source, with its varying payload as argument:
`pleaseSpecify` is `"Please specify leave days like: 'apply for leave 2.5'"`;
`parseError tok` is the `except ValueError` reply
`"❌ could not convert string to float: '<tok>'"`;
`applyFailed e` is the `except Exception` reply `"❌ <e>"`;
`applied days remaining` is the `"✅ Leave application ... submitted"` reply
showing the day count and the refreshed remaining balance. -/
inductive Msg
  | pleaseSpecify
  | parseError (token : List Char)
  | applyFailed (e : List Char)
  | applied (days remaining : ℚ)
deriving DecidableEq

/-- `QueryHandler._handle_leave_application` (src/query_handler.py lines
40–61), with the user's current remaining balance as parameter. The day count
is `float(parts[3]) if len(parts) > 3 else None`; a missing token gives
`None` and a token parsed to `0.0` is falsy, so both hit the
`if not days` guard and return `pleaseSpecify`; a non-numeric token raises
`ValueError`, caught as `parseError`; otherwise `apply_for_leave` runs, its
(wrapped) exception caught by `except Exception` as `applyFailed` with the
handler's own `"Failed to apply for leave: "` text prepended once more. -/
def handle_leave_application (remaining : ℚ) (query : List Char) : Msg :=
  let parts := splitWs query
  match parts[3]? with
  | none => Msg.pleaseSpecify
  | some tok =>
    match pyFloat tok with
    | none => Msg.parseError tok
    | some d =>
      if d = 0 then Msg.pleaseSpecify
      else
        match apply_for_leave remaining d with
        | Except.error e =>
            Msg.applyFailed ("Failed to apply for leave: ".toList ++ e)
        | Except.ok newRemaining => Msg.applied d newRemaining

/-! ## Authentication (src/auth.py, `Authenticator.authenticate`) -/

/-- A row of the spreadsheet-backed user store, restricted to the fields
`authenticate` reads. -/
structure UserRecord where
  username : List Char
  password : Int
deriving DecidableEq

/-- `Authenticator.authenticate` (src/auth.py lines 52–68), with the loaded
`user_data` rows as parameter: `int(password)` first (a `ValueError` is
caught and yields `False`), then a scan for a row matching the username
case-insensitively with that integer password. -/
def authenticate (user_data : List UserRecord) (username password : List Char) : Bool :=
  match pyInt password with
  | none => false
  | some pw =>
    user_data.any (fun u =>
      decide (toLowerL u.username = toLowerL username) && decide (u.password = pw))

/-! ## Answer generation (src/rag_system.py, `PolicyRAGSystem._invoke_gemini`
and `PolicyRAGSystem.query_policy`) -/

/-- The error reply text `"Error processing your query: "` prepended to the
cause in both `_invoke_gemini` and `query_policy`. -/
def errReplyHead : List Char := "Error processing your query: ".toList

/-- The conciseness condition of `_invoke_gemini`
(`result.count(". ") > 4 or len(result) > 600`). -/
def needsSummary (result : List Char) : Bool :=
  decide (countDotSpace result > 4) || decide (result.length > 600)

/-- `PolicyRAGSystem._invoke_gemini` (src/rag_system.py lines 134–167).
`gen` is the outcome of the first `generate_content` call (`Except.error`
models a raised backend exception, `Except.ok` carries `response.text`);
`summ` is the outcome of the optional second, summarizing call as a function
of the prompt's source text. Returns the reply together with the number of
`generate_content` calls made. Any exception in the `try` block is caught and
converted to the `"Error processing your query: <cause>"` reply. -/
def invoke_gemini (gen : Except (List Char) (List Char))
    (summ : List Char → Except (List Char) (List Char)) : List Char × Nat :=
  match gen with
  | Except.error e => (errReplyHead ++ e, 1)
  | Except.ok txt =>
    let result := trimL txt
    if needsSummary result then
      match summ result with
      | Except.error e => (errReplyHead ++ e, 2)
      | Except.ok s => (trimL s, 2)
    else (result, 1)

/-- `PolicyRAGSystem.query_policy` (src/rag_system.py lines 169–183).
`chain_ready` models `self.chain` being set; `chainResult` the outcome of
`self.chain.invoke(...)` (`Except.error` models a raised exception). -/
def query_policy (chain_ready : Bool) (chainResult : Except (List Char) (List Char)) :
    List Char :=
  if !chain_ready then "System initializing, please wait...".toList
  else
    match chainResult with
    | Except.ok r => r
    | Except.error e => errReplyHead ++ e

/-! ## Ingestion (src/data_loader.py, `PolicyDataLoader`) -/

/-- The corpus-holding fields of a `PolicyDataLoader` instance mutated by
`load_all_documents`: `all_chunks`, `chunk_embeddings`, and the
vectorstore/retriever pair represented by a flag. -/
structure LoaderState where
  all_chunks : List (List Char)
  chunk_embeddings : Option (List (List ℚ))
  retriever_set : Bool
deriving DecidableEq

/-- The external collaborators and inputs of one `load_all_documents` call:
whether the PDF path exists and its loaded pages, the recursive text
splitter, the HTTP status and the `(df.empty, serialized text)` sheets of the
spreadsheet export, the embedding backend and the FAISS index builder
(`Except.error` models a raised exception). -/
structure IngestEnv where
  pdf_exists : Bool
  pdf_pages : List (List Char)
  split : List Char → List (List Char)
  fetch_status : Nat
  sheets : List (Bool × List Char)
  encode : List (List Char) → Except (List Char) (List (List ℚ))
  build_index : List (List Char) → Except (List Char) Unit

/-- The chunk list produced from the PDF pages (src/data_loader.py lines
45–50): a page containing `"│"` or, upper-cased, `"TABLE"`, is kept whole;
any other page goes through the text splitter. -/
def pdfSplits (env : IngestEnv) : List (List Char) :=
  env.pdf_pages.flatMap (fun page =>
    if containsSub ("│".toList) page || containsSub ("TABLE".toList) (toUpperL page) then
      [page]
    else env.split page)

/-- The chunk list produced from the spreadsheet export (src/data_loader.py
lines 65–71): one chunk per non-empty sheet. -/
def excelDocs (env : IngestEnv) : List (List Char) :=
  (env.sheets.filter (fun s => !s.1)).map (fun s => s.2)

/-- `PolicyDataLoader._load_pdf_documents` (src/data_loader.py lines 31–53):
raises `FileNotFoundError` if the PDF path does not exist, else returns the
split chunks. -/
def load_pdf_documents (env : IngestEnv) : Except (List Char) (List (List Char)) :=
  if !env.pdf_exists then
    Except.error ("HR policies PDF not found at hr_policies.pdf".toList)
  else
    Except.ok (pdfSplits env)

/-- `PolicyDataLoader._load_excel_documents` (src/data_loader.py lines
55–74): raises on a status other than 200, else returns one chunk per
non-empty sheet. -/
def load_excel_documents (env : IngestEnv) : Except (List Char) (List (List Char)) :=
  if env.fetch_status ≠ 200 then
    Except.error ("Failed to download Excel file from Google Sheets".toList)
  else
    Except.ok (excelDocs env)

/-- The combined chunk list a `load_all_documents` call stores and embeds
(`all_docs = pdf_docs + excel_docs`). -/
def ingestedDocs (env : IngestEnv) : List (List Char) := pdfSplits env ++ excelDocs env

/-- The wrapping text of the blanket `except` clause of `load_all_documents`
(`"❌ Failed to load documents: "`, leading emoji omitted). -/
def loadFailHead : List Char := "Failed to load documents: ".toList

/-- `PolicyDataLoader.load_all_documents` (src/data_loader.py lines 97–120)
as a transition on the loader's state: `self.all_chunks` is assigned before
embeddings are computed and `self.chunk_embeddings` before the index is
built, so a raised exception (re-raised wrapped by the `except` clause)
carries the object state as already mutated at the point of failure. -/
def load_all_documents (env : IngestEnv) (s : LoaderState) :
    Except (List Char × LoaderState) LoaderState :=
  match load_pdf_documents env with
  | Except.error e => Except.error (loadFailHead ++ e, s)
  | Except.ok pdf_docs =>
    match load_excel_documents env with
    | Except.error e => Except.error (loadFailHead ++ e, s)
    | Except.ok excel_docs =>
      let all_docs := pdf_docs ++ excel_docs
      let s1 : LoaderState := { s with all_chunks := all_docs }
      match env.encode all_docs with
      | Except.error e => Except.error (loadFailHead ++ e, s1)
      | Except.ok embs =>
        let s2 : LoaderState := { s1 with chunk_embeddings := some embs }
        match env.build_index all_docs with
        | Except.error e => Except.error (loadFailHead ++ e, s2)
        | Except.ok _ => Except.ok { s2 with retriever_set := true }

/-! ## Reranker (src/data_loader.py, `PolicyDataLoader.rerank_chunks`) -/

/-- `PolicyDataLoader.rerank_chunks` (src/data_loader.py lines 76–95). The
composite of the deterministic embedding backend and cosine similarity
against the fixed query is abstracted as the scoring function `score`, so
`score c` is the cosine similarity between the query embedding and the
embedding of candidate `c`. An empty candidate list returns `[]` at once;
otherwise `sorted(zip(scores, retrieved_chunks), key=lambda x: x[0],
reverse=True)` — a stable descending sort on the score component — is
modelled by `List.mergeSort` with the order `b.1 ≤ a.1`, and the first
`top_k` chunks are returned. -/
def rerank_chunks {α : Type} (score : α → ℚ) (retrieved_chunks : List α)
    (top_k : Nat) : List α :=
  if retrieved_chunks.isEmpty then []
  else
    let ranked := (retrieved_chunks.map (fun c => (score c, c))).mergeSort
      (fun a b => decide (b.1 ≤ a.1))
    (ranked.take top_k).map Prod.snd

end HRAssistant

namespace HRAssistant

/-- C2: the router evaluates its rules in strict priority order on the
lower-cased, trimmed query text: a query whose normalised text starts with
`"apply for leave"` always takes the leave-application branch (never the
balance branch, even if it contains a balance phrase); a query not starting
with that prefix but containing a balance phrase takes the balance branch;
every other query takes the policy-question branch. -/
theorem c2_router_priority (query : List Char) :
    (("apply for leave".toList).isPrefixOf (normQuery query) = true →
      handle_query_route query = Route.leaveApplication) ∧
    (("apply for leave".toList).isPrefixOf (normQuery query) = false →
      (balancePhrases.any (fun t => containsSub t (normQuery query)) = true →
        handle_query_route query = Route.balance) ∧
      (balancePhrases.any (fun t => containsSub t (normQuery query)) = false →
        handle_query_route query = Route.policyQuestion)) := by
  refine ⟨fun h => ?_, fun h => ⟨fun hb => ?_, fun hb => ?_⟩⟩
  · simp only [handle_query_route, h]
    rfl
  · simp only [handle_query_route, h, hb]
    rfl
  · simp only [handle_query_route, h, hb]
    rfl

/-- Witness for C2: `"Apply for leave 3 because of my remaining leaves"`
routes to the leave-application branch even though it contains the balance
phrase `"remaining leaves"`; `"what is my leave balance"` routes to the
balance branch; `"what is the travel policy"` routes to the policy branch. -/
theorem c2_router_priority_witness :
    handle_query_route ("Apply for leave 3 because of my remaining leaves".toList) =
      Route.leaveApplication ∧
    handle_query_route ("what is my leave balance".toList) = Route.balance ∧
    handle_query_route ("what is the travel policy".toList) = Route.policyQuestion :=
  ⟨(c2_router_priority _).1 (by decide),
   ((c2_router_priority _).2 (by decide)).1 (by decide),
   ((c2_router_priority _).2 (by decide)).2 (by decide)⟩

/-- C3: `apply_for_leave` validates in the fixed order positivity, minimum,
maximum, sufficient balance, and the first failing check determines the
reported reason: `days = -1` yields the positivity reason (whatever the
balance), `days = 0.1` the minimum-days reason, `days = 40` the maximum-days
reason, and `days = 10` with remaining balance `5` the insufficient-balance
reason. -/
theorem c3_validation_order :
    (∀ r : ℚ, apply_for_leave r (-1) =
      Except.error ("Failed to apply for leave: Leave days must be positive".toList)) ∧
    (∀ r : ℚ, apply_for_leave r 0.1 =
      Except.error ("Failed to apply for leave: Minimum leave is 0.5 day".toList)) ∧
    (∀ r : ℚ, apply_for_leave r 40 =
      Except.error ("Failed to apply for leave: Maximum leave is 30 days".toList)) ∧
    apply_for_leave 5 10 =
      Except.error ("Failed to apply for leave: Not enough remaining leaves".toList) := by
  refine ⟨fun r => ?_, fun r => ?_, fun r => ?_, ?_⟩ <;>
    simp only [apply_for_leave, MIN_LEAVE_DAYS, MAX_LEAVE_DAYS] <;>
    norm_num

/-- C7: a day count exactly equal to the remaining balance passes the
sufficient-balance check and succeeds (the other validations holding), while
remaining + 0.01 fails with the insufficient-balance reason. -/
theorem c7_balance_boundary (r : ℚ) (hmin : MIN_LEAVE_DAYS ≤ r)
    (hmax : r + 1 / 100 ≤ MAX_LEAVE_DAYS) :
    apply_for_leave r r = Except.ok 0 ∧
    apply_for_leave r (r + 1 / 100) =
      Except.error ("Failed to apply for leave: Not enough remaining leaves".toList) := by
  rw [MIN_LEAVE_DAYS] at hmin
  rw [MAX_LEAVE_DAYS] at hmax
  constructor
  · simp only [apply_for_leave, MIN_LEAVE_DAYS, MAX_LEAVE_DAYS]
    split_ifs with h1 h2 h3 h4
    · exfalso; linarith
    · exfalso; linarith
    · exfalso; linarith
    · exfalso; linarith
    · simp
  · simp only [apply_for_leave, MIN_LEAVE_DAYS, MAX_LEAVE_DAYS]
    split_ifs with h1 h2 h3 h4
    · exfalso; linarith
    · exfalso; linarith
    · exfalso; linarith
    · rfl
    · exfalso; linarith

/-- Witness for C7 at remaining balance 10: `apply_for_leave 10 10` succeeds
leaving balance 0, `apply_for_leave 10 10.01` reports insufficient balance. -/
theorem c7_balance_boundary_witness :
    MIN_LEAVE_DAYS ≤ (10 : ℚ) ∧ (10 : ℚ) + 1 / 100 ≤ MAX_LEAVE_DAYS ∧
    apply_for_leave 10 10 = Except.ok 0 ∧
    apply_for_leave 10 (10 + 1 / 100) =
      Except.error ("Failed to apply for leave: Not enough remaining leaves".toList) :=
  ⟨by norm_num [MIN_LEAVE_DAYS], by norm_num [MAX_LEAVE_DAYS],
   (c7_balance_boundary 10 (by norm_num [MIN_LEAVE_DAYS])
     (by norm_num [MAX_LEAVE_DAYS])).1,
   (c7_balance_boundary 10 (by norm_num [MIN_LEAVE_DAYS])
     (by norm_num [MAX_LEAVE_DAYS])).2⟩

/-- Counterexample to C4: for the query `"apply for leave abc"` (which starts
with `"apply for leave"` and whose 4th whitespace-separated token `"abc"` is
not parseable as a float), `_handle_leave_application` returns the
`except ValueError` conversion-error reply, not the
`"Please specify leave days like: 'apply for leave 2.5'"` message. -/
theorem c4_counterexample :
    handle_leave_application 10 ("apply for leave abc".toList) =
      Msg.parseError ("abc".toList) ∧
    Msg.parseError ("abc".toList) ≠ Msg.pleaseSpecify := by
  decide

/-- C4 (amended): for a query starting with `"apply for leave"`, a missing
4th whitespace-separated token yields the
`"Please specify leave days like: 'apply for leave 2.5'"` message, while a
present but unparseable token yields the conversion-error reply
(`"❌ could not convert string to float: '<token>'"`) instead. -/
theorem c4_amended_parse_failures (remaining : ℚ) (query : List Char)
    (_hq : ("apply for leave".toList).isPrefixOf query = true) :
    ((splitWs query)[3]? = none →
      handle_leave_application remaining query = Msg.pleaseSpecify) ∧
    (∀ tok, (splitWs query)[3]? = some tok → pyFloat tok = none →
      handle_leave_application remaining query = Msg.parseError tok) := by
  refine ⟨fun h => ?_, fun tok h hp => ?_⟩
  · simp [handle_leave_application, h]
  · simp [handle_leave_application, h, hp]

/-- Witness for C4 (amended): `"apply for leave"` has no 4th token and gets
the please-specify message; `"apply for leave abc"` has the unparseable token
`"abc"` and gets the conversion-error reply. -/
theorem c4_amended_parse_failures_witness :
    ("apply for leave".toList).isPrefixOf ("apply for leave".toList) = true ∧
    (splitWs ("apply for leave".toList))[3]? = none ∧
    handle_leave_application 10 ("apply for leave".toList) = Msg.pleaseSpecify ∧
    ("apply for leave".toList).isPrefixOf ("apply for leave abc".toList) = true ∧
    (splitWs ("apply for leave abc".toList))[3]? = some ("abc".toList) ∧
    pyFloat ("abc".toList) = none ∧
    handle_leave_application 10 ("apply for leave abc".toList) =
      Msg.parseError ("abc".toList) :=
  ⟨by decide, by decide,
   (c4_amended_parse_failures 10 _ (by decide)).1 (by decide),
   by decide, by decide, by decide,
   (c4_amended_parse_failures 10 _ (by decide)).2 _ (by decide) (by decide)⟩

/-- C10: a 4th token parsing to the value `0.0` is caught by the falsy
`if not days` guard, so `_handle_leave_application` returns the
please-specify message and `apply_for_leave` (hence its
`"Leave days must be positive"` check) is never reached; in particular the
concrete query `"apply for leave 0"` gets the please-specify message. -/
theorem c10_zero_days_treated_absent (remaining : ℚ) (query : List Char) :
    (∀ tok, (splitWs query)[3]? = some tok → pyFloat tok = some 0 →
      handle_leave_application remaining query = Msg.pleaseSpecify ∧
      ∀ e, handle_leave_application remaining query ≠ Msg.applyFailed e) ∧
    handle_leave_application remaining ("apply for leave 0".toList) =
      Msg.pleaseSpecify := by
  refine ⟨fun tok h hp => ?_, rfl⟩
  have hres : handle_leave_application remaining query = Msg.pleaseSpecify := by
    simp [handle_leave_application, h, hp]
  exact ⟨hres, fun e h' => by rw [hres] at h'; exact Msg.noConfusion h'⟩

/-- Witness for C10 at the query `"apply for leave 0"` with remaining
balance 10. -/
theorem c10_zero_days_treated_absent_witness :
    (splitWs ("apply for leave 0".toList))[3]? = some ("0".toList) ∧
    pyFloat ("0".toList) = some 0 ∧
    handle_leave_application 10 ("apply for leave 0".toList) = Msg.pleaseSpecify ∧
    ∀ e, handle_leave_application 10 ("apply for leave 0".toList) ≠ Msg.applyFailed e :=
  ⟨by decide, by decide,
   ((c10_zero_days_treated_absent 10 ("apply for leave 0".toList)).1 ("0".toList)
     (by decide) (by decide)).1,
   ((c10_zero_days_treated_absent 10 ("apply for leave 0".toList)).1 ("0".toList)
     (by decide) (by decide)).2⟩

/-- C8: `authenticate` succeeds iff some loaded row matches the given
username case-insensitively and has the integer parse of the given password
string as its password; a password string that does not parse as an integer
yields `False` rather than raising. -/
theorem c8_authenticate_spec (user_data : List UserRecord)
    (username password : List Char) :
    (authenticate user_data username password = true ↔
      ∃ u ∈ user_data, toLowerL u.username = toLowerL username ∧
        pyInt password = some u.password) ∧
    (pyInt password = none → authenticate user_data username password = false) := by
  constructor
  · cases hp : pyInt password with
    | none => simp [authenticate, hp]
    | some pw =>
      simp only [authenticate, hp, List.any_eq_true, Bool.and_eq_true,
        decide_eq_true_eq, Option.some.injEq]
      exact ⟨fun ⟨u, hu, h1, h2⟩ => ⟨u, hu, h1, h2.symm⟩,
             fun ⟨u, hu, h1, h2⟩ => ⟨u, hu, h1, h2.symm⟩⟩
  · intro hp
    simp [authenticate, hp]

/-- Witness for C8: the non-integer password string `"12a"` makes
`authenticate` return `False` on a store containing Alice. -/
theorem c8_authenticate_spec_witness :
    pyInt ("12a".toList) = none ∧
    authenticate [⟨"Alice".toList, 1234⟩] ("bob".toList) ("12a".toList) = false :=
  ⟨by decide, (c8_authenticate_spec _ _ _).2 (by decide)⟩

/-- C5: a raised backend error in the first generation call, in the
summarizing call, or anywhere inside `chain.invoke`, is converted to the
reply `"Error processing your query: " ++ cause` instead of propagating:
`_invoke_gemini` and `query_policy` always return a reply string. -/
theorem c5_backend_failures_converted :
    (∀ (cause : List Char) (summ : List Char → Except (List Char) (List Char)),
      (invoke_gemini (Except.error cause) summ).1 = errReplyHead ++ cause) ∧
    (∀ (txt e : List Char) (summ : List Char → Except (List Char) (List Char)),
      needsSummary (trimL txt) = true → summ (trimL txt) = Except.error e →
      (invoke_gemini (Except.ok txt) summ).1 = errReplyHead ++ e) ∧
    (∀ cause : List Char,
      query_policy true (Except.error cause) = errReplyHead ++ cause) := by
  refine ⟨fun cause summ => rfl, fun txt e summ h hs => ?_, fun cause => rfl⟩
  simp [invoke_gemini, h, hs]

/-- Witness for C5: a raw response with five `". "` occurrences triggers the
summarizing call; when that call fails with cause `"boom"`, the reply is the
error text for `"boom"`. -/
theorem c5_backend_failures_converted_witness :
    needsSummary (trimL (". . . . . .".toList)) = true ∧
    (invoke_gemini (Except.ok (". . . . . .".toList))
        (fun _ => Except.error ("boom".toList))).1 =
      errReplyHead ++ "boom".toList :=
  ⟨by decide, c5_backend_failures_converted.2.1 _ _ _ (by decide) rfl⟩

/-- C6: `_invoke_gemini` issues the second, summarizing generation call iff
the stripped raw response has more than four `". "` occurrences or more than
600 characters; in that case it returns the (stripped) summarized text as-is,
without re-checking it against the condition; otherwise it returns the raw
text; and at most two generation calls are ever made. -/
theorem c6_bounded_summarization (txt : List Char)
    (summ : List Char → Except (List Char) (List Char)) :
    (needsSummary (trimL txt) = true →
      (invoke_gemini (Except.ok txt) summ).2 = 2 ∧
      ∀ s, summ (trimL txt) = Except.ok s →
        (invoke_gemini (Except.ok txt) summ).1 = trimL s) ∧
    (needsSummary (trimL txt) = false →
      invoke_gemini (Except.ok txt) summ = (trimL txt, 1)) ∧
    (∀ gen, (invoke_gemini gen summ).2 ≤ 2) := by
  refine ⟨fun h => ⟨?_, fun s hs => ?_⟩, fun h => ?_, fun gen => ?_⟩
  · rcases hs : summ (trimL txt) with e | s <;> simp [invoke_gemini, h, hs]
  · simp [invoke_gemini, h, hs]
  · simp [invoke_gemini, h]
  · cases gen with
    | error e => simp [invoke_gemini]
    | ok t =>
      by_cases h : needsSummary (trimL t) = true
      · rcases hs : summ (trimL t) with e | s <;> simp [invoke_gemini, h, hs]
      · simp [invoke_gemini, h]

/-- Witness for C6: a five-sentence raw response is summarized (two calls,
summary returned even though it is never re-checked), while the short
response `"Short."` is returned as-is after one call. -/
theorem c6_bounded_summarization_witness :
    needsSummary (trimL (". . . . . .".toList)) = true ∧
    (invoke_gemini (Except.ok (". . . . . .".toList))
      (fun _ => Except.ok ("Short.".toList))).2 = 2 ∧
    (invoke_gemini (Except.ok (". . . . . .".toList))
      (fun _ => Except.ok ("Short.".toList))).1 = trimL ("Short.".toList) ∧
    needsSummary (trimL ("Short.".toList)) = false ∧
    invoke_gemini (Except.ok ("Short.".toList)) (fun _ => Except.ok ("x".toList)) =
      (trimL ("Short.".toList), 1) :=
  ⟨by decide,
   ((c6_bounded_summarization _ _).1 (by decide)).1,
   ((c6_bounded_summarization _ _).1 (by decide)).2 _ rfl,
   by decide,
   (c6_bounded_summarization _ _).2.1 (by decide)⟩

/-- Counterexample to C9: starting from an empty loader, a failing embedding
backend makes `load_all_documents` raise, yet the error state already holds
the combined chunk list in `all_chunks` — partial corpus state is exposed by
the document store after the failed call. -/
theorem c9_counterexample :
    load_all_documents
      ⟨true, ["policy text".toList], fun p => [p], 200, [],
       fun _ => Except.error ("boom".toList), fun _ => Except.ok ()⟩
      ⟨[], none, false⟩ =
      Except.error (loadFailHead ++ "boom".toList,
        ⟨["policy text".toList], none, false⟩) ∧
    (⟨["policy text".toList], none, false⟩ : LoaderState) ≠ ⟨[], none, false⟩ := by
  exact ⟨rfl, by decide⟩

/-- C9 (amended): `load_all_documents` raises when the PDF path does not
exist, when the spreadsheet fetch status is not 200, and when the embedding
or index-build step fails; a failure before the `all_chunks` assignment
leaves the store unchanged, but an embedding failure leaves `all_chunks`
updated and an index-build failure leaves both `all_chunks` and
`chunk_embeddings` updated — ingestion is not all-or-nothing for the late
steps. -/
theorem c9_amended_failure_behaviour (env : IngestEnv) (s : LoaderState) :
    (env.pdf_exists = false →
      load_all_documents env s =
        Except.error
          (loadFailHead ++ "HR policies PDF not found at hr_policies.pdf".toList, s)) ∧
    (env.pdf_exists = true → env.fetch_status ≠ 200 →
      load_all_documents env s =
        Except.error
          (loadFailHead ++ "Failed to download Excel file from Google Sheets".toList, s)) ∧
    (∀ e, env.pdf_exists = true → env.fetch_status = 200 →
      env.encode (ingestedDocs env) = Except.error e →
      load_all_documents env s =
        Except.error (loadFailHead ++ e, { s with all_chunks := ingestedDocs env })) ∧
    (∀ e embs, env.pdf_exists = true → env.fetch_status = 200 →
      env.encode (ingestedDocs env) = Except.ok embs →
      env.build_index (ingestedDocs env) = Except.error e →
      load_all_documents env s =
        Except.error (loadFailHead ++ e,
          { s with all_chunks := ingestedDocs env, chunk_embeddings := some embs })) := by
  refine ⟨fun h => ?_, fun h hf => ?_, fun e h hf henc => ?_,
    fun e embs h hf henc hidx => ?_⟩
  · simp [load_all_documents, load_pdf_documents, h]
  · simp [load_all_documents, load_pdf_documents, load_excel_documents, h, hf]
  · rw [ingestedDocs] at henc
    simp [load_all_documents, load_pdf_documents, load_excel_documents,
      ingestedDocs, h, hf, henc]
  · rw [ingestedDocs] at henc hidx
    simp [load_all_documents, load_pdf_documents, load_excel_documents,
      ingestedDocs, h, hf, henc, hidx]

/-- Witness for C9 (amended), exercising all four failure points on concrete
environments: missing PDF, fetch status 503, failing embedder, and failing
index build. -/
theorem c9_amended_failure_behaviour_witness :
    load_all_documents
      ⟨false, [], fun p => [p], 200, [], fun _ => Except.ok [], fun _ => Except.ok ()⟩
      ⟨[], none, false⟩ =
      Except.error
        (loadFailHead ++ "HR policies PDF not found at hr_policies.pdf".toList,
         ⟨[], none, false⟩) ∧
    load_all_documents
      ⟨true, [], fun p => [p], 503, [], fun _ => Except.ok [], fun _ => Except.ok ()⟩
      ⟨[], none, false⟩ =
      Except.error
        (loadFailHead ++ "Failed to download Excel file from Google Sheets".toList,
         ⟨[], none, false⟩) ∧
    load_all_documents
      ⟨true, ["a".toList], fun p => [p], 200, [],
       fun _ => Except.error ("emb down".toList), fun _ => Except.ok ()⟩
      ⟨[], none, false⟩ =
      Except.error (loadFailHead ++ "emb down".toList, ⟨["a".toList], none, false⟩) ∧
    load_all_documents
      ⟨true, ["a".toList], fun p => [p], 200, [],
       fun _ => Except.ok [[1]], fun _ => Except.error ("faiss down".toList)⟩
      ⟨[], none, false⟩ =
      Except.error (loadFailHead ++ "faiss down".toList,
        ⟨["a".toList], some [[1]], false⟩) :=
  ⟨(c9_amended_failure_behaviour _ _).1 rfl,
   (c9_amended_failure_behaviour _ _).2.1 rfl (by decide),
   (c9_amended_failure_behaviour _ _).2.2.1 _ rfl rfl rfl,
   (c9_amended_failure_behaviour _ _).2.2.2 _ _ rfl rfl rfl rfl⟩

/-- `rerank_chunks` on any input equals the stably descending-sorted pair
list truncated to `top_k` and projected to chunks (the empty-input guard of
the source collapses into the general expression). -/
theorem rerank_chunks_eq {α : Type} (score : α → ℚ) (cs : List α) (k : Nat) :
    rerank_chunks score cs k =
      ((((cs.map (fun c => (score c, c))).mergeSort
        (fun a b => decide (b.1 ≤ a.1))).take k).map Prod.snd) := by
  cases cs with
  | nil => simp [rerank_chunks]
  | cons c cs => rfl

/-- Every pair in the sorted pair list behind `rerank_chunks` comes from a
candidate: its first component is that candidate's score and its second
component the candidate itself. -/
theorem rerank_pairs_mem {α : Type} (score : α → ℚ) (cs : List α) :
    ∀ p ∈ (cs.map (fun c => (score c, c))).mergeSort (fun a b => decide (b.1 ≤ a.1)),
      p.1 = score p.2 ∧ p.2 ∈ cs := by
  intro p hp
  rw [List.mem_mergeSort] at hp
  rcases List.mem_map.mp hp with ⟨c, hc, rfl⟩
  exact ⟨rfl, hc⟩

/-- The descending score comparator behind `rerank_chunks` is transitive. -/
theorem rerank_le_trans {α : Type} :
    ∀ a b c : ℚ × α, (fun a b : ℚ × α => decide (b.1 ≤ a.1)) a b →
      (fun a b : ℚ × α => decide (b.1 ≤ a.1)) b c →
      (fun a b : ℚ × α => decide (b.1 ≤ a.1)) a c := by
  intro a b c h1 h2
  simp only [decide_eq_true_eq] at h1 h2 ⊢
  exact le_trans h2 h1

/-- The descending score comparator behind `rerank_chunks` is total. -/
theorem rerank_le_total {α : Type} :
    ∀ a b : ℚ × α, ((fun a b : ℚ × α => decide (b.1 ≤ a.1)) a b ||
      (fun a b : ℚ × α => decide (b.1 ≤ a.1)) b a) = true := by
  intro a b
  simp only [Bool.or_eq_true, decide_eq_true_eq]
  exact le_total b.1 a.1

/-- Stability of the descending sort behind `rerank_chunks`: filtering the
sorted pair list to one score value yields exactly the same-score pairs of
the input, in input order. -/
theorem rerank_sorted_filter_stable {α : Type} (score : α → ℚ) (cs : List α) (s : ℚ) :
    ((cs.map (fun c => (score c, c))).mergeSort
        (fun a b => decide (b.1 ≤ a.1))).filter (fun p => decide (p.1 = s)) =
      (cs.map (fun c => (score c, c))).filter (fun p => decide (p.1 = s)) := by
  have hpw : ((cs.map (fun c => (score c, c))).filter
      (fun p => decide (p.1 = s))).Pairwise
      (fun a b : ℚ × α => decide (b.1 ≤ a.1)) := by
    apply List.pairwise_of_forall_mem_list
    intro a ha b hb
    have ha' := List.of_mem_filter ha
    have hb' := List.of_mem_filter hb
    simp only [decide_eq_true_eq] at ha' hb' ⊢
    rw [ha', hb']
  have hsub : ((cs.map (fun c => (score c, c))).filter
      (fun p => decide (p.1 = s))).Sublist
      ((cs.map (fun c => (score c, c))).mergeSort (fun a b => decide (b.1 ≤ a.1))) :=
    List.sublist_mergeSort rerank_le_trans rerank_le_total hpw (List.filter_sublist _)
  have hsub2 := hsub.filter (fun p => decide (p.1 = s))
  have hid : ((cs.map (fun c => (score c, c))).filter
      (fun p => decide (p.1 = s))).filter (fun p => decide (p.1 = s)) =
      (cs.map (fun c => (score c, c))).filter (fun p => decide (p.1 = s)) := by
    rw [List.filter_eq_self]
    intro a ha
    exact (List.mem_filter.mp ha).2
  rw [hid] at hsub2
  have hperm := (List.mergeSort_perm (cs.map (fun c => (score c, c)))
    (fun a b => decide (b.1 ≤ a.1))).filter (fun p => decide (p.1 = s))
  exact (hsub2.eq_of_length hperm.length_eq.symm).symm

/-- Projecting the same-score pairs of the input pair list back to chunks
gives the same-score candidates in candidate order. -/
theorem rerank_pairs_filter_map_snd {α : Type} (score : α → ℚ) (cs : List α) (s : ℚ) :
    ((cs.map (fun c => (score c, c))).filter (fun p => decide (p.1 = s))).map Prod.snd =
      cs.filter (fun c => decide (score c = s)) := by
  rw [List.filter_map, List.map_map]
  simp only [Function.comp_def]
  simp

/-- C1: `rerank_chunks` (the effect of the fixed query and the deterministic
embedding backend on a candidate abstracted as the scoring function `score`)
returns at most `top_k` elements, each drawn from the candidates, ordered by
descending score; tied-score chunks stay in their original candidate order
(for each score value, the result's chunks with that score form a
subsequence of the input's chunks with that score); and an empty candidate
list yields `[]` without error. -/
theorem c1_rerank_spec {α : Type} (score : α → ℚ) (cs : List α) (k : Nat) :
    rerank_chunks score ([] : List α) k = [] ∧
    (rerank_chunks score cs k).length ≤ k ∧
    (∀ c ∈ rerank_chunks score cs k, c ∈ cs) ∧
    (rerank_chunks score cs k).Pairwise (fun a b => score b ≤ score a) ∧
    (∀ s : ℚ,
      ((rerank_chunks score cs k).filter (fun c => decide (score c = s))).Sublist
        (cs.filter (fun c => decide (score c = s)))) := by
  refine ⟨rfl, ?_, ?_, ?_, ?_⟩
  · rw [rerank_chunks_eq, List.length_map, List.length_take]
    exact min_le_left _ _
  · intro c hc
    rw [rerank_chunks_eq] at hc
    rcases List.mem_map.mp hc with ⟨p, hp, rfl⟩
    exact (rerank_pairs_mem score cs p (List.mem_of_mem_take hp)).2
  · rw [rerank_chunks_eq]
    refine List.pairwise_map.mpr ?_
    have hs := List.sorted_mergeSort rerank_le_trans rerank_le_total
      (cs.map (fun c => (score c, c)))
    have ht := hs.sublist (List.take_sublist k _)
    refine List.Pairwise.imp_of_mem ?_ ht
    intro a b ha hb hr
    have ha' := (rerank_pairs_mem score cs a (List.mem_of_mem_take ha)).1
    have hb' := (rerank_pairs_mem score cs b (List.mem_of_mem_take hb)).1
    simp only [decide_eq_true_eq] at hr
    rw [← ha', ← hb']
    exact hr
  · intro s
    rw [rerank_chunks_eq, List.filter_map]
    have hcong : (((cs.map (fun c => (score c, c))).mergeSort
          (fun a b => decide (b.1 ≤ a.1))).take k).filter
          ((fun c => decide (score c = s)) ∘ Prod.snd) =
        (((cs.map (fun c => (score c, c))).mergeSort
          (fun a b => decide (b.1 ≤ a.1))).take k).filter
          (fun p => decide (p.1 = s)) := by
      apply List.filter_congr
      intro p hp
      have := (rerank_pairs_mem score cs p (List.mem_of_mem_take hp)).1
      simp [Function.comp, this]
    rw [hcong]
    have hsub := (List.take_sublist k ((cs.map (fun c => (score c, c))).mergeSort
      (fun a b => decide (b.1 ≤ a.1)))).filter (fun p => decide (p.1 = s))
    rw [rerank_sorted_filter_stable score cs s] at hsub
    have hmap := hsub.map Prod.snd
    rw [rerank_pairs_filter_map_snd score cs s] at hmap
    exact hmap

/-- Witness for C1: on the singleton candidate list `[5]` with score
`mkRat n 1`, the chunk 5 is in the reranked result and, by the theorem, in
the candidate list. -/
theorem c1_rerank_spec_witness :
    (5 : ℕ) ∈ rerank_chunks (fun n : ℕ => mkRat n 1) [5] 2 ∧ (5 : ℕ) ∈ [5] :=
  ⟨by simp [rerank_chunks],
   (c1_rerank_spec (fun n : ℕ => mkRat n 1) [5] 2).2.2.1 5 (by simp [rerank_chunks])⟩

end HRAssistant
